import Mathlib

/-!
Verification of the Cajamarca demographic dashboard (`cajamarca5.py`).

The program loads a census CSV, derives a quinquennial `AgeGroup` label from
the numeric `AgeEnd` field via a fixed lookup table, and builds three views:
a population pyramid for one year, a stacked-area trend across years, and a
percent-change bar chart between two years.  We embed the data model and the
three builders as pure Lean functions and prove the specified properties.
-/

namespace Cajamarca

/-- A raw CSV row, with the Spanish column names of the input file
(`Departamento, Año, RangoEdad, EdadInicio, EdadFin, Sexo, Población`).
`Poblacion` is a population count, hence a natural number. -/
structure RawRow where
  Departamento : String
  Anio : Int
  RangoEdad : String
  EdadInicio : Int
  EdadFin : Int
  Sexo : String
  Poblacion : Nat
deriving DecidableEq, Repr

/-- A loaded row after `load_data`: columns renamed to canonical names and the
derived `AgeGroup` column added (`None` when `AgeEnd` has no mapping). -/
structure Row where
  Location : String
  Time : Int
  AgeRange : String
  AgeStart : Int
  AgeEnd : Int
  Sex : String
  Value : Nat
  AgeGroup : Option String
deriving DecidableEq, Repr

/-- The 17 canonical quinquennial labels, in the order that defines the
categorical total order (`age_groups` in the source). -/
def age_groups : List String :=
  ["0-4", "5-9", "10-14", "15-19", "20-24", "25-29",
   "30-34", "35-39", "40-44", "45-49", "50-54", "55-59",
   "60-64", "65-69", "70-74", "75-79", "80 y más"]

/-- The `age_mapping` dictionary of the source: `AgeEnd` key to label. -/
def age_mapping_table : List (Int × String) :=
  [(4, "0-4"), (9, "5-9"), (14, "10-14"), (19, "15-19"), (24, "20-24"),
   (29, "25-29"), (34, "30-34"), (39, "35-39"), (44, "40-44"), (49, "45-49"),
   (54, "50-54"), (59, "55-59"), (64, "60-64"), (69, "65-69"), (74, "70-74"),
   (79, "75-79"), (120, "80 y más")]

/-- `df['AgeEnd'].map(age_mapping)`: exact dictionary lookup, `None` (pandas
NaN) for keys absent from the dictionary. -/
def age_mapping (e : Int) : Option String :=
  age_mapping_table.lookup e

/-- `load_data` (minus the file read): rename the columns to canonical names
and derive `AgeGroup` from `AgeEnd` by the lookup table.  The categorical
ordering of `AgeGroup` is represented by the fixed list `age_groups`, which
all grouping operations below traverse in order. -/
def load_data (raw : List RawRow) : List Row :=
  raw.map (fun r =>
    { Location := r.Departamento
      Time := r.Anio
      AgeRange := r.RangoEdad
      AgeStart := r.EdadInicio
      AgeEnd := r.EdadFin
      Sex := r.Sexo
      Value := r.Poblacion
      AgeGroup := age_mapping r.EdadFin })

/-- Sum of the `Value` column of a list of rows. -/
def sumValues (rows : List Row) : Nat :=
  (rows.map (fun r => r.Value)).sum

/-- Whether some row of `rows` carries the (mapped) age group `g`; this is
pandas' "observed" notion for `groupby('AgeGroup', observed=True)`: rows whose
`AgeGroup` is NaN belong to no group. -/
def observedB (rows : List Row) (g : String) : Bool :=
  rows.any (fun r => r.AgeGroup == some g)

/-- Total `Value` of the rows of `rows` carrying age group `g`. -/
def groupTotal (rows : List Row) (g : String) : Nat :=
  sumValues (rows.filter (fun r => r.AgeGroup == some g))

/-- `rows.groupby('AgeGroup', observed=True)['Value'].sum()`: one entry per
observed age group, in the categorical (canonical) order — pandas sorts
grouped keys by category order for an ordered categorical, regardless of the
order of the input rows; rows with NaN `AgeGroup` are dropped. -/
def groupByAgeGroup (rows : List Row) : List (String × Nat) :=
  age_groups.filterMap (fun g =>
    if observedB rows g then some (g, groupTotal rows g) else none)

/-- `generate_population_pyramid`: filter to the year, split by sex, group by
age group.  Male sums are plotted as positive magnitudes, female sums are
negated.  Returns (male bars, female bars) as (label, signed value) lists. -/
def generate_population_pyramid (data : List Row) (year : Int) :
    List (String × Int) × List (String × Int) :=
  let df_year := data.filter (fun r => r.Time == year)
  let df_male := groupByAgeGroup (df_year.filter (fun r => r.Sex == "Hombre"))
  let df_female := groupByAgeGroup (df_year.filter (fun r => r.Sex == "Mujer"))
  (df_male.map (fun p => (p.1, (p.2 : Int))),
   df_female.map (fun p => (p.1, -(p.2 : Int))))

/-- Insert an integer into a sorted list, keeping it sorted ascending. -/
def insertSorted (x : Int) : List Int → List Int
  | [] => [x]
  | y :: ys => if x ≤ y then x :: y :: ys else y :: insertSorted x ys

/-- Insertion sort on integers, ascending. -/
def sortInts (l : List Int) : List Int :=
  l.foldr insertSorted []

/-- The row index of `data.groupby(['Time','AgeGroup'], observed=True)`
after `unstack()`: the distinct years of the rows that survive the group-by
(rows with NaN `AgeGroup` are dropped), sorted ascending. -/
def trendYears (data : List Row) : List Int :=
  sortInts (((data.filter (fun r => !(r.AgeGroup == none))).map
    (fun r => r.Time)).dedup)

/-- `generate_population_trend`: group by (year, age group) summing `Value`
across both sexes; one output row per year, carrying the per-age-group sums
present in that year's data (cells absent from a year do not appear). -/
def generate_population_trend (data : List Row) :
    List (Int × List (String × Nat)) :=
  (trendYears data).map (fun y =>
    (y, groupByAgeGroup (data.filter (fun r => r.Time == y))))

/-- The value of a pandas float cell produced by a division: either a finite
rational or the non-finite result (`inf`/`NaN`) of dividing by zero. -/
inductive PdFloat where
  | finite : ℚ → PdFloat
  | nonfinite : PdFloat
deriving DecidableEq, Repr

/-- Pandas elementwise division: dividing by zero does not raise, it produces
a non-finite value (`inf` for a nonzero numerator, `NaN` for `0/0`). -/
def pdDiv (a b : ℚ) : PdFloat :=
  if b = 0 then PdFloat.nonfinite else PdFloat.finite (a / b)

/-- Multiplying a pandas float by a constant; non-finite values stay
non-finite. -/
def PdFloat.mulConst (x : PdFloat) (c : ℚ) : PdFloat :=
  match x with
  | PdFloat.finite q => PdFloat.finite (q * c)
  | PdFloat.nonfinite => PdFloat.nonfinite

/-- `generate_comparison_chart`: per-age-group totals for each year,
`pd.merge(..., on='AgeGroup')` (inner join, keeping the left frame's
canonical key order), then
`Change = (Value_year2 - Value_year1) / Value_year1 * 100`.
Each output entry is (age group, year-1 total, year-2 total, Change). -/
def generate_comparison_chart (data : List Row) (year1 year2 : Int) :
    List (String × Nat × Nat × PdFloat) :=
  let df_year1 := groupByAgeGroup (data.filter (fun r => r.Time == year1))
  let df_year2 := groupByAgeGroup (data.filter (fun r => r.Time == year2))
  df_year1.filterMap (fun p =>
    match df_year2.lookup p.1 with
    | some v2 =>
        some (p.1, p.2, v2,
          (pdDiv ((v2 : ℚ) - (p.2 : ℚ)) (p.2 : ℚ)).mulConst 100)
    | none => none)

/-- The spec's per-year per-group aggregate `V_y[g]`: the sum of `Value` over
the rows with `Time == y` and `AgeGroup == g` (across both sexes). -/
def yearGroupTotal (data : List Row) (y : Int) (g : String) : Nat :=
  sumValues (data.filter (fun r => r.Time == y && r.AgeGroup == some g))

/-- The spec's "age group `g` has a per-year aggregate in year `y`": some row
of that year carries the group. -/
def observedIn (data : List Row) (y : Int) (g : String) : Prop :=
  ∃ r ∈ data, r.Time = y ∧ r.AgeGroup = some g

instance (data : List Row) (y : Int) (g : String) :
    Decidable (observedIn data y g) := by
  unfold observedIn; infer_instance

/-! ### State-passing variants of the builders

The Python builders receive the loaded frame and only ever derive fresh
frames from it (boolean-mask filters, `groupby(...).sum()`, `pd.merge`); the
single column assignment in the program, `df_compare['Change'] = ...`, writes
into the frame freshly returned by `pd.merge`, never into the input.  The
variants below make that threading explicit: they return the table they were
handed alongside the chart data, with the comparison builder's column
assignment modelled as a separate step on the merged (derived) frame. -/

def generate_population_pyramid_app (data : List Row) (year : Int) :
    List Row × (List (String × Int) × List (String × Int)) :=
  (data, generate_population_pyramid data year)

def generate_population_trend_app (data : List Row) :
    List Row × List (Int × List (String × Nat)) :=
  (data, generate_population_trend data)

/-- The `pd.merge(df_year1, df_year2, on='AgeGroup')` step alone: the inner
join of the two per-year aggregates, without the `Change` column yet. -/
def comparison_merge (data : List Row) (year1 year2 : Int) :
    List (String × Nat × Nat) :=
  let df_year1 := groupByAgeGroup (data.filter (fun r => r.Time == year1))
  let df_year2 := groupByAgeGroup (data.filter (fun r => r.Time == year2))
  df_year1.filterMap (fun p =>
    (df_year2.lookup p.1).map (fun v2 => (p.1, p.2, v2)))

/-- The `df_compare['Change'] = ...` assignment: a new column computed on the
merged frame, leaving every other frame untouched. -/
def comparison_add_change (df_compare : List (String × Nat × Nat)) :
    List (String × Nat × Nat × PdFloat) :=
  df_compare.map (fun t =>
    (t.1, t.2.1, t.2.2,
      (pdDiv ((t.2.2 : ℚ) - (t.2.1 : ℚ)) (t.2.1 : ℚ)).mulConst 100))

def generate_comparison_chart_app (data : List Row) (year1 year2 : Int) :
    List Row × List (String × Nat × Nat × PdFloat) :=
  (data, comparison_add_change (comparison_merge data year1 year2))

/-! ### Concrete tables used to instantiate the theorems -/

/-- A raw CSV row with the fields that matter to the builders; `RangoEdad`
and `EdadInicio` are irrelevant to every property proved here. -/
def mkRaw (anio edadFin : Int) (sexo : String) (v : Nat) : RawRow :=
  { Departamento := "Cajamarca", Anio := anio, RangoEdad := "",
    EdadInicio := 0, EdadFin := edadFin, Sexo := sexo, Poblacion := v }

def c1_raw : RawRow := mkRaw 2017 4 "Hombre" 100

def c1_row : Row :=
  { Location := "Cajamarca", Time := 2017, AgeRange := "", AgeStart := 0,
    AgeEnd := 4, Sex := "Hombre", Value := 100, AgeGroup := age_mapping 4 }

/-- Year 1981 populated on all 17 age groups (total 10 each), year 2017 with
a single "0-4" row of 30. -/
def c2_data : List Row :=
  load_data ((age_mapping_table.map (fun kv => mkRaw 1981 kv.1 "Hombre" 10))
    ++ [mkRaw 2017 4 "Hombre" 30])

/-- A single male row of year 2017 whose `AgeEnd` (82) has no mapping. -/
def c3_bad : List Row := load_data [mkRaw 2017 82 "Hombre" 5]

def c3_good : List Row :=
  load_data [mkRaw 2017 4 "Hombre" 7, mkRaw 2017 9 "Mujer" 5]

/-- Year 2017 with one mapped row (value 3) and one unmapped row (value 5). -/
def c4_bad : List Row :=
  load_data [mkRaw 2017 4 "Hombre" 3, mkRaw 2017 82 "Hombre" 5]

def c4_good : List Row :=
  load_data [mkRaw 2017 4 "Hombre" 7, mkRaw 2017 4 "Mujer" 5]

/-- A zero "0-4" total in year 1981 and a nonzero one in year 2017. -/
def c5_data : List Row :=
  load_data [mkRaw 1981 4 "Hombre" 0, mkRaw 2017 4 "Hombre" 9]

def c6_data : List Row := load_data [mkRaw 2017 4 "Hombre" 7]

/-- A loaded row whose `AgeEnd` (82) got no `AgeGroup`. -/
def c6_row : Row :=
  { Location := "Cajamarca", Time := 2017, AgeRange := "", AgeStart := 80,
    AgeEnd := 82, Sex := "Hombre", Value := 5, AgeGroup := none }

/-- Identical per-age-group data in 1981 and 2017, with a zero aggregate. -/
def c7_bad : List Row :=
  load_data [mkRaw 1981 4 "Hombre" 0, mkRaw 2017 4 "Hombre" 0]

/-- Identical per-age-group data in 1981 and 2017, nonzero aggregate. -/
def c7_good : List Row :=
  load_data [mkRaw 1981 4 "Hombre" 10, mkRaw 2017 4 "Hombre" 10]

def c8_rowA : Row :=
  { Location := "Cajamarca", Time := 2017, AgeRange := "", AgeStart := 5,
    AgeEnd := 9, Sex := "Hombre", Value := 3, AgeGroup := age_mapping 9 }

def c8_rowB : Row :=
  { Location := "Cajamarca", Time := 2017, AgeRange := "", AgeStart := 0,
    AgeEnd := 4, Sex := "Mujer", Value := 2, AgeGroup := age_mapping 4 }

def c9_data : List Row := load_data [mkRaw 2017 4 "Hombre" 7]

/-! ### Basic lemmas about the group-by operation -/

lemma age_groups_nodup : age_groups.Nodup := by decide

lemma observedB_eq_true_iff {rows : List Row} {g : String} :
    observedB rows g = true ↔ ∃ r ∈ rows, r.AgeGroup = some g := by
  unfold observedB
  rw [List.any_eq_true]
  simp only [beq_iff_eq]

lemma groupTotal_eq_zero_of_not_observed {rows : List Row} {g : String}
    (h : observedB rows g = false) : groupTotal rows g = 0 := by
  unfold groupTotal sumValues
  have hnil : rows.filter (fun r => r.AgeGroup == some g) = [] := by
    rw [List.filter_eq_nil_iff]
    intro r hr hbeq
    have : observedB rows g = true := by
      rw [observedB_eq_true_iff]
      exact ⟨r, hr, by simpa [beq_iff_eq] using hbeq⟩
    rw [h] at this
    exact Bool.false_ne_true this
  rw [hnil]
  rfl

lemma mem_groupByAgeGroup {rows : List Row} {p : String × Nat} :
    p ∈ groupByAgeGroup rows ↔
      p.1 ∈ age_groups ∧ observedB rows p.1 = true ∧
        p.2 = groupTotal rows p.1 := by
  unfold groupByAgeGroup
  rw [List.mem_filterMap]
  constructor
  · rintro ⟨g, hg, hif⟩
    by_cases h : observedB rows g = true
    · rw [if_pos h] at hif
      cases hif
      exact ⟨hg, h, rfl⟩
    · rw [if_neg h] at hif
      cases hif
  · rintro ⟨h1, h2, h3⟩
    refine ⟨p.1, h1, ?_⟩
    rw [if_pos h2, ← h3]

lemma lookup_filterMap_if {β : Type} (obs : String → Bool) (tot : String → β) :
    ∀ (ks : List String), ks.Nodup → ∀ g : String,
      ((ks.filterMap (fun k => if obs k then some (k, tot k) else none)).lookup g)
        = if g ∈ ks ∧ obs g = true then some (tot g) else none := by
  intro ks
  induction ks with
  | nil => intro _ g; simp
  | cons k ks ih =>
    intro hnd g
    rw [List.nodup_cons] at hnd
    by_cases ho : obs k = true
    · rw [List.filterMap_cons]
      simp only [if_pos ho]
      by_cases heq : g = k
      · subst heq
        simp [List.lookup_cons, ho]
      · rw [List.lookup_cons]
        have hbeq : (g == k) = false := by
          simp [beq_iff_eq, heq]
        simp only [hbeq, ih hnd.2 g]
        by_cases hmem : g ∈ ks ∧ obs g = true
        · rw [if_pos hmem, if_pos ⟨List.mem_cons_of_mem k hmem.1, hmem.2⟩]
        · rw [if_neg hmem, if_neg]
          rintro ⟨hmk, hog⟩
          rcases List.mem_cons.mp hmk with h | h
          · exact heq h
          · exact hmem ⟨h, hog⟩
    · rw [List.filterMap_cons]
      simp only [if_neg ho, ih hnd.2 g]
      by_cases heq : g = k
      · subst heq
        rw [if_neg, if_neg]
        · rintro ⟨_, hog⟩; exact ho hog
        · rintro ⟨hmem, _⟩; exact hnd.1 hmem
      · by_cases hmem : g ∈ ks ∧ obs g = true
        · rw [if_pos hmem, if_pos ⟨List.mem_cons_of_mem k hmem.1, hmem.2⟩]
        · rw [if_neg hmem, if_neg]
          rintro ⟨hmk, hog⟩
          rcases List.mem_cons.mp hmk with h | h
          · exact heq h
          · exact hmem ⟨h, hog⟩

lemma lookup_groupByAgeGroup (rows : List Row) (g : String) :
    (groupByAgeGroup rows).lookup g
      = if g ∈ age_groups ∧ observedB rows g = true
        then some (groupTotal rows g) else none :=
  lookup_filterMap_if (observedB rows) (groupTotal rows) age_groups
    age_groups_nodup g

lemma map_fst_filterMap_if {β : Type} (obs : String → Bool) (tot : String → β) :
    ∀ (ks : List String),
      (ks.filterMap (fun k => if obs k then some (k, tot k) else none)).map
          Prod.fst
        = ks.filter obs := by
  intro ks
  induction ks with
  | nil => rfl
  | cons k ks ih =>
    rw [List.filterMap_cons, List.filter_cons]
    by_cases ho : obs k = true
    · simp only [if_pos ho, List.map_cons, ih]
    · simp only [if_neg ho, ih]

lemma map_fst_groupByAgeGroup (rows : List Row) :
    (groupByAgeGroup rows).map Prod.fst
      = age_groups.filter (fun g => observedB rows g) :=
  map_fst_filterMap_if (observedB rows) (groupTotal rows) age_groups

/-! ### The grouped sums partition the mapped rows -/

lemma groupTotal_cons (r : Row) (rows : List Row) (g : String) :
    groupTotal (r :: rows) g
      = (if r.AgeGroup = some g then r.Value else 0) + groupTotal rows g := by
  unfold groupTotal sumValues
  rw [List.filter_cons]
  by_cases h : r.AgeGroup = some g
  · rw [if_pos h, if_pos (by simpa [beq_iff_eq] using h), List.map_cons,
      List.sum_cons]
  · rw [if_neg h, if_neg (by simpa [beq_iff_eq] using h), Nat.zero_add]

lemma sum_map_ite_single (v : Nat) (g0 : String) :
    ∀ (ks : List String), ks.Nodup → g0 ∈ ks →
      (ks.map (fun g => if g0 = g then v else 0)).sum = v := by
  intro ks
  induction ks with
  | nil => intro _ h; cases h
  | cons k ks ih =>
    intro hnd hmem
    rw [List.nodup_cons] at hnd
    rw [List.map_cons, List.sum_cons]
    by_cases heq : g0 = k
    · subst heq
      rw [if_pos rfl]
      have : (ks.map (fun g => if g0 = g then v else 0))
          = ks.map (fun _ => 0) := by
        apply List.map_congr_left
        intro g hg
        rw [if_neg]
        intro h
        exact hnd.1 (h ▸ hg)
      rw [this, List.sum_map_zero, Nat.add_zero]
    · rw [if_neg heq, Nat.zero_add]
      rcases List.mem_cons.mp hmem with h | h
      · exact absurd h heq
      · exact ih hnd.2 h

lemma sum_map_groupTotal :
    ∀ (rows : List Row),
      (∀ r ∈ rows, ∃ g ∈ age_groups, r.AgeGroup = some g) →
      (age_groups.map (fun g => groupTotal rows g)).sum = sumValues rows := by
  intro rows
  induction rows with
  | nil =>
    intro _
    have : (age_groups.map (fun g => groupTotal [] g))
        = age_groups.map (fun _ => 0) := by
      apply List.map_congr_left
      intro g _
      rfl
    rw [this, List.sum_map_zero]
    rfl
  | cons r rest ih =>
    intro h
    have hcons : (age_groups.map (fun g => groupTotal (r :: rest) g))
        = age_groups.map
            (fun g => (if r.AgeGroup = some g then r.Value else 0)
              + groupTotal rest g) := by
      apply List.map_congr_left
      intro g _
      exact groupTotal_cons r rest g
    rw [hcons, List.sum_map_add]
    obtain ⟨g0, hg0, hag⟩ := h r (List.mem_cons_self r rest)
    have hsingle :
        (age_groups.map (fun g => if r.AgeGroup = some g then r.Value else 0))
          = age_groups.map (fun g => if g0 = g then r.Value else 0) := by
      apply List.map_congr_left
      intro g _
      rw [hag]
      by_cases heq : g0 = g
      · rw [if_pos (by rw [heq]), if_pos heq]
      · rw [if_neg (by intro hc; exact heq (Option.some_injective _ hc)),
          if_neg heq]
    rw [hsingle, sum_map_ite_single r.Value g0 age_groups age_groups_nodup hg0,
      ih (fun r' hr' => h r' (List.mem_cons_of_mem r hr'))]
    rfl

lemma sum_map_snd_groupByAgeGroup (rows : List Row) :
    ((groupByAgeGroup rows).map (fun p => p.2)).sum
      = (age_groups.map (fun g => groupTotal rows g)).sum := by
  unfold groupByAgeGroup
  induction age_groups with
  | nil => rfl
  | cons k ks ih =>
    rw [List.filterMap_cons, List.map_cons, List.sum_cons]
    by_cases ho : observedB rows k = true
    · simp only [if_pos ho, List.map_cons, List.sum_cons, ih]
    · simp only [if_neg ho, ih,
        groupTotal_eq_zero_of_not_observed (Bool.eq_false_iff.mpr ho),
        Nat.zero_add]

/-- The central partition fact: when every row carries one of the 17 canonical
age groups, the grouped sums add up to the plain column sum. -/
lemma sum_groupByAgeGroup (rows : List Row)
    (h : ∀ r ∈ rows, ∃ g ∈ age_groups, r.AgeGroup = some g) :
    ((groupByAgeGroup rows).map (fun p => p.2)).sum = sumValues rows := by
  rw [sum_map_snd_groupByAgeGroup, sum_map_groupTotal rows h]

/-! ### Permutation invariance of the group-by operation -/

lemma observedB_perm {rows rows2 : List Row} (h : rows.Perm rows2)
    (g : String) : observedB rows g = observedB rows2 g := by
  rw [Bool.eq_iff_iff, observedB_eq_true_iff, observedB_eq_true_iff]
  constructor
  · rintro ⟨r, hr, hg⟩; exact ⟨r, h.mem_iff.mp hr, hg⟩
  · rintro ⟨r, hr, hg⟩; exact ⟨r, h.mem_iff.mpr hr, hg⟩

lemma groupTotal_perm {rows rows2 : List Row} (h : rows.Perm rows2)
    (g : String) : groupTotal rows g = groupTotal rows2 g := by
  unfold groupTotal sumValues
  exact ((h.filter _).map _).sum_eq

lemma groupByAgeGroup_perm {rows rows2 : List Row} (h : rows.Perm rows2) :
    groupByAgeGroup rows = groupByAgeGroup rows2 := by
  unfold groupByAgeGroup
  apply List.filterMap_congr
  intro g _
  rw [observedB_perm h g, groupTotal_perm h g]

/-! ### Per-year aggregates seen through the year filter -/

lemma groupTotal_filter_time (data : List Row) (y : Int) (g : String) :
    groupTotal (data.filter (fun r => r.Time == y)) g
      = yearGroupTotal data y g := by
  unfold groupTotal yearGroupTotal sumValues
  rw [List.filter_filter]
  have h : List.filter (fun a => a.AgeGroup == some g && a.Time == y) data
      = List.filter (fun r => r.Time == y && r.AgeGroup == some g) data := by
    apply List.filter_congr
    intro r _
    exact Bool.and_comm (r.AgeGroup == some g) (r.Time == y)
  rw [h]

lemma observedB_filter_time (data : List Row) (y : Int) (g : String) :
    observedB (data.filter (fun r => r.Time == y)) g = true
      ↔ observedIn data y g := by
  rw [observedB_eq_true_iff]
  unfold observedIn
  constructor
  · rintro ⟨r, hr, hg⟩
    rw [List.mem_filter] at hr
    exact ⟨r, hr.1, by simpa [beq_iff_eq] using hr.2, hg⟩
  · rintro ⟨r, hr, ht, hg⟩
    exact ⟨r, List.mem_filter.mpr ⟨hr, by simpa [beq_iff_eq] using ht⟩, hg⟩

/-- Characterization of the comparison chart's entries: exactly the age
groups observed in both years, each carrying its two per-year totals and the
percent-change value computed from them. -/
lemma mem_comparison_chart {data : List Row} {y1 y2 : Int}
    {e : String × Nat × Nat × PdFloat} :
    e ∈ generate_comparison_chart data y1 y2 ↔
      e.1 ∈ age_groups ∧ observedIn data y1 e.1 ∧ observedIn data y2 e.1 ∧
        e = (e.1, yearGroupTotal data y1 e.1, yearGroupTotal data y2 e.1,
          (pdDiv ((yearGroupTotal data y2 e.1 : ℚ)
              - (yearGroupTotal data y1 e.1 : ℚ))
            (yearGroupTotal data y1 e.1 : ℚ)).mulConst 100) := by
  unfold generate_comparison_chart
  rw [List.mem_filterMap]
  constructor
  · rintro ⟨p, hp, hmatch⟩
    rw [mem_groupByAgeGroup] at hp
    obtain ⟨hg, hobs1, htot1⟩ := hp
    rw [lookup_groupByAgeGroup] at hmatch
    by_cases hobs2 : p.1 ∈ age_groups
        ∧ observedB (data.filter (fun r => r.Time == y2)) p.1 = true
    · rw [if_pos hobs2] at hmatch
      injection hmatch with hEq
      subst hEq
      refine ⟨hg, (observedB_filter_time data y1 p.1).mp hobs1,
        (observedB_filter_time data y2 p.1).mp hobs2.2, ?_⟩
      rw [htot1]
      simp only [groupTotal_filter_time]
    · rw [if_neg hobs2] at hmatch
      cases hmatch
  · rintro ⟨hg, hobs1, hobs2, he⟩
    refine ⟨(e.1, yearGroupTotal data y1 e.1), ?_, ?_⟩
    · rw [mem_groupByAgeGroup]
      exact ⟨hg, (observedB_filter_time data y1 e.1).mpr hobs1,
        (groupTotal_filter_time data y1 e.1).symm⟩
    · rw [lookup_groupByAgeGroup,
        if_pos ⟨hg, (observedB_filter_time data y2 e.1).mpr hobs2⟩]
      simp only [groupTotal_filter_time]
      exact congrArg some he.symm

/-! ### Further bridging lemmas -/

lemma filter_time_sex (data : List Row) (year : Int) (s : String) :
    (data.filter (fun r => r.Time == year)).filter (fun r => r.Sex == s)
      = data.filter (fun r => r.Time == year && r.Sex == s) := by
  rw [List.filter_filter]
  apply List.filter_congr
  intro r _
  exact Bool.and_comm (r.Sex == s) (r.Time == year)

lemma lookup_eq_none_of_not_mem_keys {β : Type} :
    ∀ (l : List (Int × β)) (e : Int),
      e ∉ l.map Prod.fst → l.lookup e = none := by
  intro l
  induction l with
  | nil => intro e _; rfl
  | cons kv l ih =>
    intro e he
    obtain ⟨k, v⟩ := kv
    simp only [List.map_cons, List.mem_cons, not_or] at he
    rw [List.lookup_cons]
    have hb : (e == k) = false := beq_eq_false_iff_ne.mpr he.1
    rw [hb]
    exact ih e he.2

lemma observedB_cons_none {r : Row} {rows : List Row} {g : String}
    (h : r.AgeGroup = none) :
    observedB (r :: rows) g = observedB rows g := by
  unfold observedB
  rw [List.any_cons]
  have hb : (r.AgeGroup == some g) = false := by
    rw [h]
    rfl
  rw [hb, Bool.false_or]

lemma groupTotal_cons_none {r : Row} {rows : List Row} {g : String}
    (h : r.AgeGroup = none) :
    groupTotal (r :: rows) g = groupTotal rows g := by
  rw [groupTotal_cons, if_neg, Nat.zero_add]
  rw [h]
  exact fun hc => Option.noConfusion hc

lemma groupByAgeGroup_cons_none {r : Row} {rows : List Row}
    (h : r.AgeGroup = none) :
    groupByAgeGroup (r :: rows) = groupByAgeGroup rows := by
  unfold groupByAgeGroup
  apply List.filterMap_congr
  intro g _
  rw [observedB_cons_none h, groupTotal_cons_none h]

lemma groupByAgeGroup_filter_cons_none {data : List Row} {r : Row}
    {p : Row → Bool} (h : r.AgeGroup = none) :
    groupByAgeGroup ((r :: data).filter p) = groupByAgeGroup (data.filter p)
    := by
  rw [List.filter_cons]
  by_cases hp : p r = true
  · rw [if_pos hp]
    exact groupByAgeGroup_cons_none h
  · rw [if_neg hp]

lemma trend_series_eq {data : List Row} {y : Int}
    {series : List (String × Nat)}
    (hmem : (y, series) ∈ generate_population_trend data) :
    series = groupByAgeGroup (data.filter (fun r => r.Time == y)) := by
  unfold generate_population_trend at hmem
  rw [List.mem_map] at hmem
  obtain ⟨y2, _, heq⟩ := hmem
  have h1 : y2 = y := congrArg Prod.fst heq
  subst h1
  exact (congrArg Prod.snd heq).symm

/-! ### The claims -/

/-- Claim C1: the loader assigns `AgeGroup` by exact lookup of `AgeEnd` in
the 17-key mapping table — each of the keys 4, 9, ..., 120 yields exactly the
listed label, in order, and every other `AgeEnd` value is left unmapped. -/
theorem claim_C1_age_group_mapping :
    (∀ (raw : List RawRow) (r : Row), r ∈ load_data raw →
        r.AgeGroup = age_mapping r.AgeEnd)
    ∧ ([(4 : Int), 9, 14, 19, 24, 29, 34, 39, 44, 49, 54, 59, 64, 69, 74,
        79, 120].map age_mapping = age_groups.map some)
    ∧ (∀ e : Int,
        e ∉ [(4 : Int), 9, 14, 19, 24, 29, 34, 39, 44, 49, 54, 59, 64, 69,
          74, 79, 120] → age_mapping e = none) := by
  refine ⟨?_, by decide, ?_⟩
  · intro raw r hr
    unfold load_data at hr
    rw [List.mem_map] at hr
    obtain ⟨r0, _, heq⟩ := hr
    rw [← heq]
  · intro e he
    exact lookup_eq_none_of_not_mem_keys age_mapping_table e he

theorem claim_C1_witness :
    c1_row.AgeGroup = age_mapping c1_row.AgeEnd
    ∧ age_mapping 82 = none :=
  ⟨claim_C1_age_group_mapping.1 [c1_raw] c1_row (by decide),
   claim_C1_age_group_mapping.2.2 82 (by decide)⟩

/-- Claim C8: grouped age-group labels always come out in the fixed canonical
order — for any input rows the label column of the grouped frame is a
sublist of the canonical 17-label list, and the grouped frame is invariant
under any permutation of the input rows. -/
theorem claim_C8_canonical_order :
    (∀ rows : List Row,
        ((groupByAgeGroup rows).map Prod.fst).Sublist age_groups)
    ∧ (∀ rows rows2 : List Row, rows.Perm rows2 →
        groupByAgeGroup rows = groupByAgeGroup rows2) := by
  constructor
  · intro rows
    rw [map_fst_groupByAgeGroup]
    exact List.filter_sublist age_groups
  · intro rows rows2 h
    exact groupByAgeGroup_perm h

theorem claim_C8_witness :
    groupByAgeGroup [c8_rowA, c8_rowB] = groupByAgeGroup [c8_rowB, c8_rowA]
    :=
  claim_C8_canonical_order.2 [c8_rowA, c8_rowB] [c8_rowB, c8_rowA]
    (List.Perm.swap c8_rowB c8_rowA [])

/-- Claim C9: asking the pyramid builder for a year absent from the table
succeeds and produces empty male and female series. -/
theorem claim_C9_missing_year (data : List Row) (year : Int)
    (h : ∀ r ∈ data, r.Time ≠ year) :
    generate_population_pyramid data year = ([], []) := by
  unfold generate_population_pyramid
  have hnil : data.filter (fun r => r.Time == year) = [] := by
    rw [List.filter_eq_nil_iff]
    intro r hr
    simp only [beq_iff_eq]
    exact h r hr
  rw [hnil]
  rfl

theorem claim_C9_witness :
    generate_population_pyramid c9_data 1999 = ([], []) :=
  claim_C9_missing_year c9_data 1999 (by decide)

/-- Claim C2: for two distinct years with every age group carrying a nonzero
year-1 total, every age group observed in year 2 appears in the comparison
output with `Change = 100 * (V2 - V1) / V1`, and an age group not observed in
year 2 is absent from the output (inner-join semantics). -/
theorem claim_C2_comparison_change (data : List Row) (y1 y2 : Int)
    (_hne : y1 ≠ y2)
    (hnz : ∀ g ∈ age_groups, yearGroupTotal data y1 g ≠ 0) :
    ∀ g ∈ age_groups,
      (observedIn data y2 g →
        (g, yearGroupTotal data y1 g, yearGroupTotal data y2 g,
          PdFloat.finite (100 * ((yearGroupTotal data y2 g : ℚ)
              - (yearGroupTotal data y1 g : ℚ))
            / (yearGroupTotal data y1 g : ℚ)))
          ∈ generate_comparison_chart data y1 y2)
      ∧ (∀ e ∈ generate_comparison_chart data y1 y2, e.1 = g →
          e = (g, yearGroupTotal data y1 g, yearGroupTotal data y2 g,
            PdFloat.finite (100 * ((yearGroupTotal data y2 g : ℚ)
                - (yearGroupTotal data y1 g : ℚ))
              / (yearGroupTotal data y1 g : ℚ))))
      ∧ (¬ observedIn data y2 g →
          ∀ e ∈ generate_comparison_chart data y1 y2, e.1 ≠ g) := by
  intro g hg
  have ht1 : yearGroupTotal data y1 g ≠ 0 := hnz g hg
  have hq : ((yearGroupTotal data y1 g : ℚ)) ≠ 0 := Nat.cast_ne_zero.mpr ht1
  have harith : 100 * ((yearGroupTotal data y2 g : ℚ)
        - (yearGroupTotal data y1 g : ℚ)) / (yearGroupTotal data y1 g : ℚ)
      = ((yearGroupTotal data y2 g : ℚ) - (yearGroupTotal data y1 g : ℚ))
          / (yearGroupTotal data y1 g : ℚ) * 100 := by
    ring
  have hchg : (pdDiv ((yearGroupTotal data y2 g : ℚ)
        - (yearGroupTotal data y1 g : ℚ))
      (yearGroupTotal data y1 g : ℚ)).mulConst 100
      = PdFloat.finite (100 * ((yearGroupTotal data y2 g : ℚ)
          - (yearGroupTotal data y1 g : ℚ))
        / (yearGroupTotal data y1 g : ℚ)) := by
    simp only [pdDiv, if_neg hq, PdFloat.mulConst, harith]
  refine ⟨?_, ?_, ?_⟩
  · intro hobs2
    have hobs1 : observedIn data y1 g := by
      by_contra hno
      apply ht1
      rw [← groupTotal_filter_time]
      apply groupTotal_eq_zero_of_not_observed
      rw [Bool.eq_false_iff]
      intro htrue
      exact hno ((observedB_filter_time data y1 g).mp htrue)
    rw [mem_comparison_chart]
    exact ⟨hg, hobs1, hobs2, by rw [hchg]⟩
  · intro e hmem heq
    rw [mem_comparison_chart] at hmem
    rw [hmem.2.2.2, heq, hchg]
  · intro hno e hmem heq
    rw [mem_comparison_chart] at hmem
    exact hno (heq ▸ hmem.2.2.1)

theorem claim_C2_witness :
    ("0-4", yearGroupTotal c2_data 1981 "0-4",
      yearGroupTotal c2_data 2017 "0-4",
      PdFloat.finite (100 * ((yearGroupTotal c2_data 2017 "0-4" : ℚ)
          - (yearGroupTotal c2_data 1981 "0-4" : ℚ))
        / (yearGroupTotal c2_data 1981 "0-4" : ℚ)))
      ∈ generate_comparison_chart c2_data 1981 2017 :=
  (claim_C2_comparison_change c2_data 1981 2017 (by decide) (by decide)
    "0-4" (by decide)).1 (by decide)

/-- Claim C5: a zero year-1 total is not guarded: the age group stays in the
comparison output and its `Change` cell holds the non-finite value produced
by the division by zero. -/
theorem claim_C5_division_by_zero (data : List Row) (y1 y2 : Int) (g : String)
    (hg : g ∈ age_groups) (h1 : observedIn data y1 g)
    (h2 : observedIn data y2 g) (hz : yearGroupTotal data y1 g = 0) :
    (g, yearGroupTotal data y1 g, yearGroupTotal data y2 g,
      PdFloat.nonfinite) ∈ generate_comparison_chart data y1 y2 := by
  rw [mem_comparison_chart]
  refine ⟨hg, h1, h2, ?_⟩
  rw [hz]
  simp [pdDiv, PdFloat.mulConst]

theorem claim_C5_witness :
    ("0-4", yearGroupTotal c5_data 1981 "0-4",
      yearGroupTotal c5_data 2017 "0-4", PdFloat.nonfinite)
      ∈ generate_comparison_chart c5_data 1981 2017 :=
  claim_C5_division_by_zero c5_data 1981 2017 "0-4" (by decide) (by decide)
    (by decide) (by decide)

/-- Claim C7 (counterexample): two distinct years carrying identical
per-age-group data, but with a zero aggregate — the single `Change` value is
the non-finite result of `0/0`, not `0.0%`. -/
theorem claim_C7_counterexample :
    (age_groups.all (fun g =>
        yearGroupTotal c7_bad 1981 g == yearGroupTotal c7_bad 2017 g)) = true
    ∧ generate_comparison_chart c7_bad 1981 2017
        = [("0-4", 0, 0, PdFloat.nonfinite)]
    ∧ PdFloat.nonfinite ≠ PdFloat.finite 0 := by
  decide

/-- Claim C7 (amended): for two distinct years with identical per-age-group
aggregates, every `Change` value of an age group whose year-1 aggregate is
nonzero equals 0.0%. -/
theorem claim_C7_identical_years (data : List Row) (y1 y2 : Int)
    (_hne : y1 ≠ y2)
    (hid : ∀ g ∈ age_groups,
      yearGroupTotal data y1 g = yearGroupTotal data y2 g)
    (e : String × Nat × Nat × PdFloat)
    (he : e ∈ generate_comparison_chart data y1 y2)
    (hz : e.2.1 ≠ 0) :
    e.2.2.2 = PdFloat.finite 0 := by
  rw [mem_comparison_chart] at he
  obtain ⟨hg, _, _, heq⟩ := he
  have hsame := hid e.1 hg
  have h21 : e.2.1 = yearGroupTotal data y1 e.1 := by rw [heq]
  have ht1 : yearGroupTotal data y1 e.1 ≠ 0 := h21 ▸ hz
  have hq : ((yearGroupTotal data y1 e.1 : ℚ)) ≠ 0 := Nat.cast_ne_zero.mpr ht1
  rw [heq]
  show (pdDiv ((yearGroupTotal data y2 e.1 : ℚ)
      - (yearGroupTotal data y1 e.1 : ℚ))
    (yearGroupTotal data y1 e.1 : ℚ)).mulConst 100 = PdFloat.finite 0
  rw [← hsame]
  simp [pdDiv, PdFloat.mulConst, ht1]

lemma sum_map_cast (l : List (String × Nat)) :
    ((l.map (fun p => (p.1, (p.2 : Int)))).map (fun p => p.2)).sum
      = (((l.map (fun p => p.2)).sum : ℕ) : Int) := by
  induction l with
  | nil => rfl
  | cons a l ih =>
    simp only [List.map_cons, List.sum_cons, Nat.cast_add]
    rw [ih]

lemma sum_map_neg_natAbs (l : List (String × Nat)) :
    ((l.map (fun p => (p.1, -(p.2 : Int)))).map (fun p => p.2.natAbs)).sum
      = (l.map (fun p => p.2)).sum := by
  induction l with
  | nil => rfl
  | cons a l ih =>
    simp only [List.map_cons, List.sum_cons, ih, Int.natAbs_neg,
      Int.natAbs_ofNat]

/-- Claim C3 (amended): provided every row of the table carries one of the 17
canonical age groups (every `AgeEnd` is a mapping key), the positive-side
pyramid bars sum to the male total of the year, the absolute values of the
negative-side bars sum to the female total, male bars are nonnegative and
female bars are nonpositive. -/
theorem claim_C3_pyramid_totals (data : List Row) (year : Int)
    (h : ∀ r ∈ data, ∃ g ∈ age_groups, r.AgeGroup = some g) :
    (((generate_population_pyramid data year).1.map (fun p => p.2)).sum
        = (sumValues (data.filter
            (fun r => r.Time == year && r.Sex == "Hombre")) : Int))
    ∧ (((generate_population_pyramid data year).2.map
          (fun p => p.2.natAbs)).sum
        = sumValues (data.filter
            (fun r => r.Time == year && r.Sex == "Mujer")))
    ∧ (∀ p ∈ (generate_population_pyramid data year).1, 0 ≤ p.2)
    ∧ (∀ p ∈ (generate_population_pyramid data year).2, p.2 ≤ 0) := by
  have key : ∀ s : String,
      ((groupByAgeGroup ((data.filter (fun r => r.Time == year)).filter
          (fun r => r.Sex == s))).map (fun p => p.2)).sum
        = sumValues (data.filter (fun r => r.Time == year && r.Sex == s)) :=
    fun s => by
      rw [sum_groupByAgeGroup _ (fun r hr =>
        h r (List.mem_filter.mp (List.mem_filter.mp hr).1).1),
        filter_time_sex]
  refine ⟨?_, ?_, ?_, ?_⟩
  · show ((List.map (fun p => (p.1, (p.2 : Int)))
          (groupByAgeGroup ((data.filter (fun r => r.Time == year)).filter
            (fun r => r.Sex == "Hombre")))).map (fun p => p.2)).sum = _
    rw [sum_map_cast, key "Hombre"]
  · show ((List.map (fun p => (p.1, -(p.2 : Int)))
          (groupByAgeGroup ((data.filter (fun r => r.Time == year)).filter
            (fun r => r.Sex == "Mujer")))).map (fun p => p.2.natAbs)).sum = _
    rw [sum_map_neg_natAbs, key "Mujer"]
  · intro p hp
    rw [show (generate_population_pyramid data year).1
        = List.map (fun p => (p.1, (p.2 : Int)))
          (groupByAgeGroup ((data.filter (fun r => r.Time == year)).filter
            (fun r => r.Sex == "Hombre"))) from rfl, List.mem_map] at hp
    obtain ⟨q, _, hq⟩ := hp
    rw [← hq]
    exact Int.natCast_nonneg q.2
  · intro p hp
    rw [show (generate_population_pyramid data year).2
        = List.map (fun p => (p.1, -(p.2 : Int)))
          (groupByAgeGroup ((data.filter (fun r => r.Time == year)).filter
            (fun r => r.Sex == "Mujer"))) from rfl, List.mem_map] at hp
    obtain ⟨q, _, hq⟩ := hp
    rw [← hq]
    exact neg_nonpos.mpr (Int.natCast_nonneg q.2)

theorem claim_C3_witness :
    ((generate_population_pyramid c3_good 2017).1.map (fun p => p.2)).sum
      = (sumValues (c3_good.filter
          (fun r => r.Time == 2017 && r.Sex == "Hombre")) : Int) :=
  (claim_C3_pyramid_totals c3_good 2017 (by decide)).1

/-- Claim C3 (counterexample): with a single male row of year 2017 whose
`AgeEnd` is 82 (no mapping), the positive-side bars sum to 0 while the male
total of that year is 5 — the claim as stated fails on tables containing
unmapped rows. -/
theorem claim_C3_counterexample :
    ¬ (((generate_population_pyramid c3_bad 2017).1.map (fun p => p.2)).sum
        = (sumValues (c3_bad.filter
            (fun r => r.Time == 2017 && r.Sex == "Hombre")) : Int)) := by
  decide

/-- Claim C4 (amended): provided every row of the table carries one of the 17
canonical age groups, the per-age-group series of the trend builder sum, at
each year it outputs, to the total population of that year. -/
theorem claim_C4_trend_totals (data : List Row) (y : Int)
    (series : List (String × Nat))
    (hmem : (y, series) ∈ generate_population_trend data)
    (h : ∀ r ∈ data, ∃ g ∈ age_groups, r.AgeGroup = some g) :
    (series.map (fun p => p.2)).sum
      = sumValues (data.filter (fun r => r.Time == y)) := by
  rw [trend_series_eq hmem]
  exact sum_groupByAgeGroup _ (fun r hr => h r (List.mem_filter.mp hr).1)

theorem claim_C4_witness :
    (([(("0-4" : String), (12 : Nat))]).map (fun p => p.2)).sum
      = sumValues (c4_good.filter (fun r => r.Time == 2017)) :=
  claim_C4_trend_totals c4_good 2017 [("0-4", 12)] (by decide) (by decide)

/-- Claim C4 (counterexample): with a mapped row of value 3 and an unmapped
row (`AgeEnd = 82`) of value 5 in year 2017, the trend series for 2017 sums
to 3 while the total population of that year is 8 — the claim as stated
fails on tables containing unmapped rows. -/
theorem claim_C4_counterexample :
    (2017, [(("0-4" : String), (3 : Nat))]) ∈ generate_population_trend c4_bad
    ∧ ¬ ((([(("0-4" : String), (3 : Nat))]).map (fun p => p.2)).sum
        = sumValues (c4_bad.filter (fun r => r.Time == 2017))) := by
  decide

/-- Claim C6: a row whose `AgeEnd` is not a mapping key (so its `AgeGroup` is
unmapped) contributes to no grouped aggregate: adding such a row to the table
leaves the pyramid builder's output, every per-year grouped sum of the trend
builder, and the comparison builder's output unchanged. -/
theorem claim_C6_unmapped_excluded (data : List Row) (r : Row)
    (h : r.AgeGroup = none) :
    (∀ year : Int, generate_population_pyramid (r :: data) year
        = generate_population_pyramid data year)
    ∧ (∀ year : Int,
        groupByAgeGroup ((r :: data).filter (fun x => x.Time == year))
          = groupByAgeGroup (data.filter (fun x => x.Time == year)))
    ∧ (∀ y1 y2 : Int, generate_comparison_chart (r :: data) y1 y2
        = generate_comparison_chart data y1 y2) := by
  refine ⟨?_, ?_, ?_⟩
  · intro year
    unfold generate_population_pyramid
    simp only [filter_time_sex]
    rw [groupByAgeGroup_filter_cons_none h, groupByAgeGroup_filter_cons_none h]
  · intro year
    exact groupByAgeGroup_filter_cons_none h
  · intro y1 y2
    unfold generate_comparison_chart
    rw [groupByAgeGroup_filter_cons_none h, groupByAgeGroup_filter_cons_none h]

theorem claim_C6_witness :
    generate_population_pyramid (c6_row :: c6_data) 2017
      = generate_population_pyramid c6_data 2017 :=
  (claim_C6_unmapped_excluded c6_data c6_row (by decide)).1 2017

/-- Claim C10: the builders never modify the table they are given: in the
state-passing embedding, each builder returns its input table unchanged, and
the comparison builder — whose only column assignment targets the frame
freshly produced by the merge — returns the same chart as the direct
definition. -/
theorem claim_C10_immutability :
    (∀ (data : List Row) (year : Int),
        (generate_population_pyramid_app data year).1 = data
        ∧ (generate_population_pyramid_app data year).2
            = generate_population_pyramid data year)
    ∧ (∀ data : List Row,
        (generate_population_trend_app data).1 = data
        ∧ (generate_population_trend_app data).2
            = generate_population_trend data)
    ∧ (∀ (data : List Row) (y1 y2 : Int),
        (generate_comparison_chart_app data y1 y2).1 = data
        ∧ (generate_comparison_chart_app data y1 y2).2
            = generate_comparison_chart data y1 y2) := by
  refine ⟨fun data year => ⟨rfl, rfl⟩, fun data => ⟨rfl, rfl⟩,
    fun data y1 y2 => ⟨rfl, ?_⟩⟩
  show comparison_add_change (comparison_merge data y1 y2)
    = generate_comparison_chart data y1 y2
  unfold comparison_add_change comparison_merge generate_comparison_chart
  rw [List.map_filterMap]
  apply List.filterMap_congr
  intro p _
  cases hm : (groupByAgeGroup (data.filter (fun r => r.Time == y2))).lookup
      p.1 with
  | none => rfl
  | some v2 => rfl

theorem claim_C7_witness :
    (("0-4", (10 : Nat), (10 : Nat),
        PdFloat.finite ((((10 : ℕ) : ℚ) - ((10 : ℕ) : ℚ))
          / ((10 : ℕ) : ℚ) * 100)) :
      String × Nat × Nat × PdFloat).2.2.2 = PdFloat.finite 0 :=
  claim_C7_identical_years c7_good 1981 2017 (by decide) (by decide)
    ("0-4", 10, 10,
      PdFloat.finite ((((10 : ℕ) : ℚ) - ((10 : ℕ) : ℚ))
        / ((10 : ℕ) : ℚ) * 100))
    (by exact List.mem_cons_self _ _) (by decide)

end Cajamarca
